import Mathlib

/-!
Shallow embedding of `Megatron-LM/install_model.py`.

The script is a straight-line sequence of four calls against the external
hub client (the `transformers` library):

  model_name = "meta-llama/Llama-2-7b-hf"
  tokenizer = AutoTokenizer.from_pretrained(model_name)
  config = AutoConfig.from_pretrained(model_name)
  tokenizer.save_pretrained('./llama2_tokenizer')
  config.save_pretrained('./llama2_config')

The hub client is external to the repository, so it is modelled as an
abstract record of behaviours: each fetch either returns a handle or
raises, and each save either succeeds or raises, in either case leaving
some (possibly partial) content at its destination directory.  The
filesystem is a map from directory paths to optional contents.  A run of
the script yields an exit status (`Except`: an uncaught exception
propagates), the trace of operations the script invoked, and the final
filesystem.
-/

/-- The four operations the script can invoke on the hub client, with the
argument string each was invoked with. -/
inductive Op where
  | fetchTokenizer (modelName : String)
  | fetchConfig (modelName : String)
  | saveTokenizer (dir : String)
  | saveConfig (dir : String)
deriving DecidableEq, Repr

/-- Outcome of a `save_pretrained` call: `written` is the content left at
the destination directory (`none` when nothing was written), `result`
records whether the call raised. -/
structure SaveOutcome (Content : Type) where
  written : Option Content
  result : Except String Unit

/-- The external model-hub client, as consumed by the script: two fetch
capabilities keyed by a model identifier, and a save capability for each
of the two handle kinds. -/
structure HubClient (Tok Cfg Content : Type) where
  fetchTokenizer : String → Except String Tok
  fetchConfig : String → Except String Cfg
  saveTokenizer : Tok → String → SaveOutcome Content
  saveConfig : Cfg → String → SaveOutcome Content

/-- A filesystem: a map from directory paths to optional contents. -/
def FS (Content : Type) : Type := String → Option Content

/-- Apply a save outcome's write at directory `dir`: writing `some c`
creates or overwrites the directory, `none` leaves the filesystem
untouched. -/
def writeDir {Content : Type} (fs : FS Content) (dir : String) :
    Option Content → FS Content
  | none => fs
  | some c => fun p => if p = dir then some c else fs p

/-- The observable result of one run of the script. -/
structure Run (Content : Type) where
  exit : Except String Unit
  trace : List Op
  fs : FS Content

/-- `model_name = "meta-llama/Llama-2-7b-hf"` (line 4 of the script). -/
def model_name : String := "meta-llama/Llama-2-7b-hf"

/-- Destination directory of `tokenizer.save_pretrained` (line 9). -/
def tokenizer_dir : String := "./llama2_tokenizer"

/-- Destination directory of `config.save_pretrained` (line 11). -/
def config_dir : String := "./llama2_config"

/-- The script, line by line.  Each `match` on an `Except` models Python
exception propagation: an error aborts the run immediately, leaving the
remaining calls unperformed. -/
def installModel {Tok Cfg Content : Type} (hub : HubClient Tok Cfg Content)
    (fs₀ : FS Content) : Run Content :=
  -- tokenizer = AutoTokenizer.from_pretrained(model_name)
  match hub.fetchTokenizer model_name with
  | .error e => ⟨.error e, [.fetchTokenizer model_name], fs₀⟩
  | .ok tokenizer =>
    -- config = AutoConfig.from_pretrained(model_name)
    match hub.fetchConfig model_name with
    | .error e =>
        ⟨.error e, [.fetchTokenizer model_name, .fetchConfig model_name], fs₀⟩
    | .ok config =>
      -- tokenizer.save_pretrained('./llama2_tokenizer')
      match (hub.saveTokenizer tokenizer tokenizer_dir).result with
      | .error e =>
          ⟨.error e,
           [.fetchTokenizer model_name, .fetchConfig model_name,
            .saveTokenizer tokenizer_dir],
           writeDir fs₀ tokenizer_dir
             (hub.saveTokenizer tokenizer tokenizer_dir).written⟩
      | .ok _ =>
        -- config.save_pretrained('./llama2_config')
        match (hub.saveConfig config config_dir).result with
        | .error e =>
            ⟨.error e,
             [.fetchTokenizer model_name, .fetchConfig model_name,
              .saveTokenizer tokenizer_dir, .saveConfig config_dir],
             writeDir
               (writeDir fs₀ tokenizer_dir
                 (hub.saveTokenizer tokenizer tokenizer_dir).written)
               config_dir (hub.saveConfig config config_dir).written⟩
        | .ok _ =>
            ⟨.ok (),
             [.fetchTokenizer model_name, .fetchConfig model_name,
              .saveTokenizer tokenizer_dir, .saveConfig config_dir],
             writeDir
               (writeDir fs₀ tokenizer_dir
                 (hub.saveTokenizer tokenizer tokenizer_dir).written)
               config_dir (hub.saveConfig config config_dir).written⟩

/-- Process exit code of a run: 0 on success, 1 (the Python default for
an uncaught exception) otherwise. -/
def exitCode {Content : Type} (r : Run Content) : Nat :=
  match r.exit with
  | .ok _ => 0
  | .error _ => 1

/-- The complete operation sequence of a successful run. -/
def fullTrace : List Op :=
  [.fetchTokenizer model_name, .fetchConfig model_name,
   .saveTokenizer tokenizer_dir, .saveConfig config_dir]

/-! ### Concrete hub clients and filesystems, used to evaluate the model
on closed inputs. -/

/-- The empty filesystem. -/
def fsEmpty : FS Nat := fun _ => none

/-- A save behaviour for config handles that always succeeds, writing
content `2` at the destination. -/
def okSaveConfig : Nat → String → SaveOutcome Nat := fun _ _ => ⟨some 2, .ok ()⟩

/-- A hub client for which all four operations succeed. -/
def okHub : HubClient Nat Nat Nat where
  fetchTokenizer := fun _ => .ok 0
  fetchConfig := fun _ => .ok 0
  saveTokenizer := fun _ _ => ⟨some 1, .ok ()⟩
  saveConfig := okSaveConfig

/-- Like `okHub`, but the tokenizer fetch only succeeds for the exact
model identifier the script uses. -/
def okHubAlt : HubClient Nat Nat Nat where
  fetchTokenizer := fun s => if s = model_name then .ok 0 else .error "unknown model"
  fetchConfig := fun _ => .ok 0
  saveTokenizer := fun _ _ => ⟨some 1, .ok ()⟩
  saveConfig := okSaveConfig

/-- A hub client whose tokenizer fetch raises "not found"; everything
else behaves as in `okHub`. -/
def tokFailHub : HubClient Nat Nat Nat where
  fetchTokenizer := fun _ => .error "not found"
  fetchConfig := fun _ => .ok 0
  saveTokenizer := fun _ _ => ⟨some 1, .ok ()⟩
  saveConfig := okSaveConfig

/-- A hub client whose config fetch raises "not found"; everything else
behaves as in `okHub`. -/
def cfgFailHub : HubClient Nat Nat Nat where
  fetchTokenizer := fun _ => .ok 0
  fetchConfig := fun _ => .error "not found"
  saveTokenizer := fun _ _ => ⟨some 1, .ok ()⟩
  saveConfig := okSaveConfig

/-! ### Characterization of the five possible run shapes. -/

theorem run_fetchTok_err {Tok Cfg Content : Type} (hub : HubClient Tok Cfg Content)
    (fs₀ : FS Content) (e : String)
    (h₁ : hub.fetchTokenizer model_name = .error e) :
    installModel hub fs₀ = ⟨.error e, [.fetchTokenizer model_name], fs₀⟩ := by
  simp [installModel, h₁]

theorem run_fetchCfg_err {Tok Cfg Content : Type} (hub : HubClient Tok Cfg Content)
    (fs₀ : FS Content) (t : Tok) (e : String)
    (h₁ : hub.fetchTokenizer model_name = .ok t)
    (h₂ : hub.fetchConfig model_name = .error e) :
    installModel hub fs₀ =
      ⟨.error e, [.fetchTokenizer model_name, .fetchConfig model_name], fs₀⟩ := by
  simp [installModel, h₁, h₂]

theorem run_saveTok_err {Tok Cfg Content : Type} (hub : HubClient Tok Cfg Content)
    (fs₀ : FS Content) (t : Tok) (c : Cfg) (e : String)
    (h₁ : hub.fetchTokenizer model_name = .ok t)
    (h₂ : hub.fetchConfig model_name = .ok c)
    (h₃ : (hub.saveTokenizer t tokenizer_dir).result = .error e) :
    installModel hub fs₀ =
      ⟨.error e,
       [.fetchTokenizer model_name, .fetchConfig model_name,
        .saveTokenizer tokenizer_dir],
       writeDir fs₀ tokenizer_dir (hub.saveTokenizer t tokenizer_dir).written⟩ := by
  simp [installModel, h₁, h₂, h₃]

theorem run_saveCfg_err {Tok Cfg Content : Type} (hub : HubClient Tok Cfg Content)
    (fs₀ : FS Content) (t : Tok) (c : Cfg) (e : String)
    (h₁ : hub.fetchTokenizer model_name = .ok t)
    (h₂ : hub.fetchConfig model_name = .ok c)
    (h₃ : (hub.saveTokenizer t tokenizer_dir).result = .ok ())
    (h₄ : (hub.saveConfig c config_dir).result = .error e) :
    installModel hub fs₀ =
      ⟨.error e, fullTrace,
       writeDir (writeDir fs₀ tokenizer_dir (hub.saveTokenizer t tokenizer_dir).written)
         config_dir (hub.saveConfig c config_dir).written⟩ := by
  simp [installModel, fullTrace, h₁, h₂, h₃, h₄]

theorem run_all_ok {Tok Cfg Content : Type} (hub : HubClient Tok Cfg Content)
    (fs₀ : FS Content) (t : Tok) (c : Cfg)
    (h₁ : hub.fetchTokenizer model_name = .ok t)
    (h₂ : hub.fetchConfig model_name = .ok c)
    (h₃ : (hub.saveTokenizer t tokenizer_dir).result = .ok ())
    (h₄ : (hub.saveConfig c config_dir).result = .ok ()) :
    installModel hub fs₀ =
      ⟨.ok (), fullTrace,
       writeDir (writeDir fs₀ tokenizer_dir (hub.saveTokenizer t tokenizer_dir).written)
         config_dir (hub.saveConfig c config_dir).written⟩ := by
  simp [installModel, fullTrace, h₁, h₂, h₃, h₄]

/-! ### Claims -/

/-- Claim C1: a run of the script performs an in-order, duplicate-free
prefix of the fixed four-operation sequence — tokenizer fetch, config
fetch, tokenizer save, config save — and a run in which no call raises
performs exactly these four operations, none skipped, repeated, or
reordered (a raising call truncates the run, per C4). -/
theorem claim_C1 {Tok Cfg Content : Type} (hub : HubClient Tok Cfg Content)
    (fs₀ : FS Content) :
    (∃ k, 1 ≤ k ∧ (installModel hub fs₀).trace = fullTrace.take k) ∧
    ((installModel hub fs₀).exit = .ok () →
      (installModel hub fs₀).trace = fullTrace) ∧
    fullTrace.Nodup := by
  refine ⟨?_, ?_, by decide⟩ <;>
  · rcases h₁ : hub.fetchTokenizer model_name with e | t
    · rw [run_fetchTok_err hub fs₀ e h₁]
      first
        | exact ⟨1, by decide, by simp [fullTrace]⟩
        | intro h; simp at h
    · rcases h₂ : hub.fetchConfig model_name with e | c
      · rw [run_fetchCfg_err hub fs₀ t e h₁ h₂]
        first
          | exact ⟨2, by decide, by simp [fullTrace]⟩
          | intro h; simp at h
      · rcases h₃ : (hub.saveTokenizer t tokenizer_dir).result with e | u
        · rw [run_saveTok_err hub fs₀ t c e h₁ h₂ h₃]
          first
            | exact ⟨3, by decide, by simp [fullTrace]⟩
            | intro h; simp at h
        · rcases h₄ : (hub.saveConfig c config_dir).result with e | v
          · rw [run_saveCfg_err hub fs₀ t c e h₁ h₂ h₃ h₄]
            first
              | exact ⟨4, by decide, by simp [fullTrace]⟩
              | intro h; simp at h
          · rw [run_all_ok hub fs₀ t c h₁ h₂ h₃ h₄]
            first
              | exact ⟨4, by decide, by simp [fullTrace]⟩
              | intro h; rfl

/-- Closed witness for C1: with a hub client for which every call
succeeds, the run exits cleanly and its trace is exactly the full
four-operation sequence. -/
theorem claim_C1_witness :
    (installModel okHub fsEmpty).exit = .ok () ∧
    (installModel okHub fsEmpty).trace = fullTrace :=
  ⟨rfl, (claim_C1 okHub fsEmpty).2.1 rfl⟩

/-- Claim C2: every fetch operation the script invokes — tokenizer fetch
or config fetch — is invoked with the one model identifier `model_name`,
so both persisted artifacts derive from the same identifier. -/
theorem claim_C2 {Tok Cfg Content : Type} (hub : HubClient Tok Cfg Content)
    (fs₀ : FS Content) (s : String)
    (h : Op.fetchTokenizer s ∈ (installModel hub fs₀).trace ∨
         Op.fetchConfig s ∈ (installModel hub fs₀).trace) :
    s = model_name := by
  rcases h₁ : hub.fetchTokenizer model_name with e | t
  · rw [run_fetchTok_err hub fs₀ e h₁] at h
    rcases h with h | h <;> simp_all
  · rcases h₂ : hub.fetchConfig model_name with e | c
    · rw [run_fetchCfg_err hub fs₀ t e h₁ h₂] at h
      rcases h with h | h <;> simp_all
    · rcases h₃ : (hub.saveTokenizer t tokenizer_dir).result with e | u
      · rw [run_saveTok_err hub fs₀ t c e h₁ h₂ h₃] at h
        rcases h with h | h <;> simp_all
      · rcases h₄ : (hub.saveConfig c config_dir).result with e | v
        · rw [run_saveCfg_err hub fs₀ t c e h₁ h₂ h₃ h₄] at h
          rcases h with h | h <;> simp_all [fullTrace]
        · rw [run_all_ok hub fs₀ t c h₁ h₂ h₃ h₄] at h
          rcases h with h | h <;> simp_all [fullTrace]

/-- Closed witness for C2: in a concrete successful run, the tokenizer
fetch that occurs in the trace uses the literal identifier. -/
theorem claim_C2_witness : "meta-llama/Llama-2-7b-hf" = model_name :=
  claim_C2 okHub fsEmpty "meta-llama/Llama-2-7b-hf" (Or.inl (by decide))

/-- Claim C3: the model identifier is exactly "meta-llama/Llama-2-7b-hf",
the tokenizer destination is exactly "./llama2_tokenizer", the config
destination is exactly "./llama2_config", and the two destination
directory paths are distinct. -/
theorem claim_C3 :
    model_name = "meta-llama/Llama-2-7b-hf" ∧
    tokenizer_dir = "./llama2_tokenizer" ∧
    config_dir = "./llama2_config" ∧
    tokenizer_dir ≠ config_dir :=
  ⟨rfl, rfl, rfl, by decide⟩

/-- Claim C4: no failure is caught or translated.  Whichever of the four
calls raises first, its exception propagates unhandled as the run's exit
value, none of the subsequent calls appears in the trace, and the exit
code is non-zero; if all four calls succeed the exit code is zero and
all four operations were performed. -/
theorem claim_C4 {Tok Cfg Content : Type} (hub : HubClient Tok Cfg Content)
    (fs₀ : FS Content) :
    (∀ e, hub.fetchTokenizer model_name = .error e →
      (installModel hub fs₀).exit = .error e ∧
      (installModel hub fs₀).trace = fullTrace.take 1 ∧
      exitCode (installModel hub fs₀) ≠ 0) ∧
    (∀ t e, hub.fetchTokenizer model_name = .ok t →
      hub.fetchConfig model_name = .error e →
      (installModel hub fs₀).exit = .error e ∧
      (installModel hub fs₀).trace = fullTrace.take 2 ∧
      exitCode (installModel hub fs₀) ≠ 0) ∧
    (∀ t c e, hub.fetchTokenizer model_name = .ok t →
      hub.fetchConfig model_name = .ok c →
      (hub.saveTokenizer t tokenizer_dir).result = .error e →
      (installModel hub fs₀).exit = .error e ∧
      (installModel hub fs₀).trace = fullTrace.take 3 ∧
      exitCode (installModel hub fs₀) ≠ 0) ∧
    (∀ t c e, hub.fetchTokenizer model_name = .ok t →
      hub.fetchConfig model_name = .ok c →
      (hub.saveTokenizer t tokenizer_dir).result = .ok () →
      (hub.saveConfig c config_dir).result = .error e →
      (installModel hub fs₀).exit = .error e ∧
      exitCode (installModel hub fs₀) ≠ 0) ∧
    (∀ t c, hub.fetchTokenizer model_name = .ok t →
      hub.fetchConfig model_name = .ok c →
      (hub.saveTokenizer t tokenizer_dir).result = .ok () →
      (hub.saveConfig c config_dir).result = .ok () →
      (installModel hub fs₀).exit = .ok () ∧
      exitCode (installModel hub fs₀) = 0 ∧
      (installModel hub fs₀).trace = fullTrace) := by
  refine ⟨?_, ?_, ?_, ?_, ?_⟩
  · intro e h₁
    rw [run_fetchTok_err hub fs₀ e h₁]
    exact ⟨rfl, by simp [fullTrace], by simp [exitCode]⟩
  · intro t e h₁ h₂
    rw [run_fetchCfg_err hub fs₀ t e h₁ h₂]
    exact ⟨rfl, by simp [fullTrace], by simp [exitCode]⟩
  · intro t c e h₁ h₂ h₃
    rw [run_saveTok_err hub fs₀ t c e h₁ h₂ h₃]
    exact ⟨rfl, by simp [fullTrace], by simp [exitCode]⟩
  · intro t c e h₁ h₂ h₃ h₄
    rw [run_saveCfg_err hub fs₀ t c e h₁ h₂ h₃ h₄]
    exact ⟨rfl, by simp [exitCode]⟩
  · intro t c h₁ h₂ h₃ h₄
    rw [run_all_ok hub fs₀ t c h₁ h₂ h₃ h₄]
    exact ⟨rfl, rfl, rfl⟩

/-- Closed witness for C4: a hub client whose tokenizer fetch raises
"not found" makes the run exit with that error, a one-operation trace,
and a non-zero exit code. -/
theorem claim_C4_witness :
    (installModel tokFailHub fsEmpty).exit = .error "not found" ∧
    (installModel tokFailHub fsEmpty).trace = fullTrace.take 1 ∧
    exitCode (installModel tokFailHub fsEmpty) ≠ 0 :=
  (claim_C4 tokFailHub fsEmpty).1 "not found" rfl

/-- Claim C5: if either hub fetch fails for the script's model
identifier, the run exits non-zero, performs no save operation for any
directory, and leaves the filesystem exactly as it was, so neither
output directory is populated. -/
theorem claim_C5 {Tok Cfg Content : Type} (hub : HubClient Tok Cfg Content)
    (fs₀ : FS Content)
    (h : (∃ e, hub.fetchTokenizer model_name = .error e) ∨
         (∃ e, hub.fetchConfig model_name = .error e)) :
    exitCode (installModel hub fs₀) ≠ 0 ∧
    (∀ d, Op.saveTokenizer d ∉ (installModel hub fs₀).trace ∧
          Op.saveConfig d ∉ (installModel hub fs₀).trace) ∧
    (installModel hub fs₀).fs = fs₀ := by
  rcases h with ⟨e, he⟩ | ⟨e, he⟩
  · rw [run_fetchTok_err hub fs₀ e he]
    exact ⟨by simp [exitCode], fun d => ⟨by simp, by simp⟩, rfl⟩
  · rcases h₁ : hub.fetchTokenizer model_name with e₁ | t
    · rw [run_fetchTok_err hub fs₀ e₁ h₁]
      exact ⟨by simp [exitCode], fun d => ⟨by simp, by simp⟩, rfl⟩
    · rw [run_fetchCfg_err hub fs₀ t e h₁ he]
      exact ⟨by simp [exitCode], fun d => ⟨by simp, by simp⟩, rfl⟩

/-- Closed witness for C5: a hub client whose config fetch raises "not
found" — even though the tokenizer fetch succeeds — yields a non-zero
exit code, a save-free trace, and an unchanged filesystem. -/
theorem claim_C5_witness :
    exitCode (installModel cfgFailHub fsEmpty) ≠ 0 ∧
    (∀ d, Op.saveTokenizer d ∉ (installModel cfgFailHub fsEmpty).trace ∧
          Op.saveConfig d ∉ (installModel cfgFailHub fsEmpty).trace) ∧
    (installModel cfgFailHub fsEmpty).fs = fsEmpty :=
  claim_C5 cfgFailHub fsEmpty (Or.inr ⟨"not found", rfl⟩)

/-! ### Filesystem write lemmas. -/

theorem writeDir_ne {Content : Type} (fs : FS Content) (d : String)
    (w : Option Content) (p : String) (hp : p ≠ d) : writeDir fs d w p = fs p := by
  cases w <;> simp [writeDir, hp]

theorem writeDir_none {Content : Type} (fs : FS Content) (d : String) :
    writeDir fs d none = fs := rfl

theorem writeDir_idem {Content : Type} (fs : FS Content) (d : String)
    (w : Option Content) : writeDir (writeDir fs d w) d w = writeDir fs d w := by
  cases w with
  | none => rfl
  | some c => funext p; by_cases h : p = d <;> simp [writeDir, h]

theorem writeDir_pair_idem {Content : Type} (fs : FS Content) (d₁ d₂ : String)
    (w₁ w₂ : Option Content) :
    writeDir (writeDir (writeDir (writeDir fs d₁ w₁) d₂ w₂) d₁ w₁) d₂ w₂ =
      writeDir (writeDir fs d₁ w₁) d₂ w₂ := by
  funext p
  by_cases h₁ : p = d₁ <;> by_cases h₂ : p = d₂ <;>
    cases w₁ <;> cases w₂ <;> simp [writeDir, h₁, h₂] <;>
    intro h <;> simp [h]

/-- Counterexample to C6 as stated: two hub clients with identical
config-fetch results for `model_name` and identical config-save
behaviour, differing only in the tokenizer fetch (one succeeds, one
raises), leave different contents at the config directory — so the
config pipeline is not independent of the tokenizer-fetch result. -/
theorem claim_C6_counterexample :
    okHub.fetchConfig model_name = tokFailHub.fetchConfig model_name ∧
    okHub.saveConfig = tokFailHub.saveConfig ∧
    (installModel okHub fsEmpty).fs config_dir ≠
      (installModel tokFailHub fsEmpty).fs config_dir :=
  ⟨rfl, rfl, by decide⟩

/-- Claim C6 (amended): the two pipelines are independent once the
preceding steps complete.  Config direction: two hub clients agreeing on
the config fetch for `model_name` and on the config save, in runs where
the tokenizer fetch and tokenizer save both succeed, leave the same
content at the config directory.  Tokenizer direction: two hub clients
agreeing on the tokenizer fetch and tokenizer save, in runs where both
fetches succeed, leave the same content at the tokenizer directory. -/
theorem claim_C6_amended :
    (∀ (Tok₁ Tok₂ Cfg Content : Type)
       (hub₁ : HubClient Tok₁ Cfg Content) (hub₂ : HubClient Tok₂ Cfg Content)
       (fs₀ : FS Content) (t₁ : Tok₁) (t₂ : Tok₂),
       hub₁.fetchConfig model_name = hub₂.fetchConfig model_name →
       (∀ c, hub₁.saveConfig c config_dir = hub₂.saveConfig c config_dir) →
       hub₁.fetchTokenizer model_name = .ok t₁ →
       (hub₁.saveTokenizer t₁ tokenizer_dir).result = .ok () →
       hub₂.fetchTokenizer model_name = .ok t₂ →
       (hub₂.saveTokenizer t₂ tokenizer_dir).result = .ok () →
       (installModel hub₁ fs₀).fs config_dir =
         (installModel hub₂ fs₀).fs config_dir) ∧
    (∀ (Tok Cfg₁ Cfg₂ Content : Type)
       (hub₁ : HubClient Tok Cfg₁ Content) (hub₂ : HubClient Tok Cfg₂ Content)
       (fs₀ : FS Content) (c₁ : Cfg₁) (c₂ : Cfg₂),
       hub₁.fetchTokenizer model_name = hub₂.fetchTokenizer model_name →
       (∀ t, hub₁.saveTokenizer t tokenizer_dir = hub₂.saveTokenizer t tokenizer_dir) →
       hub₁.fetchConfig model_name = .ok c₁ →
       hub₂.fetchConfig model_name = .ok c₂ →
       (installModel hub₁ fs₀).fs tokenizer_dir =
         (installModel hub₂ fs₀).fs tokenizer_dir) := by
  have hdir : tokenizer_dir ≠ config_dir := by decide
  constructor
  · intro Tok₁ Tok₂ Cfg Content hub₁ hub₂ fs₀ t₁ t₂ hfc hsc ht₁ hs₁ ht₂ hs₂
    rcases hc : hub₁.fetchConfig model_name with e | c
    · rw [run_fetchCfg_err hub₁ fs₀ t₁ e ht₁ hc,
          run_fetchCfg_err hub₂ fs₀ t₂ e ht₂ (hfc ▸ hc)]
    · have hc₂ : hub₂.fetchConfig model_name = .ok c := hfc ▸ hc
      have keyc : ∀ (Tok : Type) (hub : HubClient Tok Cfg Content) (t : Tok),
          hub.fetchTokenizer model_name = .ok t →
          hub.fetchConfig model_name = .ok c →
          (hub.saveTokenizer t tokenizer_dir).result = .ok () →
          (installModel hub fs₀).fs config_dir =
            writeDir
              (writeDir fs₀ tokenizer_dir (hub.saveTokenizer t tokenizer_dir).written)
              config_dir (hub.saveConfig c config_dir).written config_dir := by
        intro Tok hub t hta hca hsa
        rcases hr : (hub.saveConfig c config_dir).result with e | v
        · rw [run_saveCfg_err hub fs₀ t c e hta hca hsa hr]
        · cases v
          rw [run_all_ok hub fs₀ t c hta hca hsa hr]
      rw [keyc Tok₁ hub₁ t₁ ht₁ hc hs₁, keyc Tok₂ hub₂ t₂ ht₂ hc₂ hs₂, ← hsc c]
      rcases hw : (hub₁.saveConfig c config_dir).written with _ | w
      · rw [writeDir_none, writeDir_none,
            writeDir_ne _ _ _ _ (Ne.symm hdir), writeDir_ne _ _ _ _ (Ne.symm hdir)]
      · simp [writeDir]
  · intro Tok Cfg₁ Cfg₂ Content hub₁ hub₂ fs₀ c₁ c₂ hft hst hc₁ hc₂
    rcases ht : hub₁.fetchTokenizer model_name with e | t
    · rw [run_fetchTok_err hub₁ fs₀ e ht, run_fetchTok_err hub₂ fs₀ e (hft ▸ ht)]
    · have ht₂ : hub₂.fetchTokenizer model_name = .ok t := hft ▸ ht
      rcases hs : (hub₁.saveTokenizer t tokenizer_dir).result with e | u
      · rw [run_saveTok_err hub₁ fs₀ t c₁ e ht hc₁ hs,
            run_saveTok_err hub₂ fs₀ t c₂ e ht₂ hc₂ ((hst t) ▸ hs)]
        show writeDir fs₀ tokenizer_dir (hub₁.saveTokenizer t tokenizer_dir).written
            tokenizer_dir =
          writeDir fs₀ tokenizer_dir (hub₂.saveTokenizer t tokenizer_dir).written
            tokenizer_dir
        rw [hst t]
      · have hs₂ : (hub₂.saveTokenizer t tokenizer_dir).result = .ok u := (hst t) ▸ hs
        have key : ∀ (Cfg : Type) (hub : HubClient Tok Cfg Content) (c : Cfg),
            hub.fetchTokenizer model_name = .ok t →
            hub.fetchConfig model_name = .ok c →
            (hub.saveTokenizer t tokenizer_dir).result = .ok () →
            (installModel hub fs₀).fs tokenizer_dir =
              writeDir fs₀ tokenizer_dir
                (hub.saveTokenizer t tokenizer_dir).written tokenizer_dir := by
          intro Cfg hub c hta hca hsa
          rcases hcc : (hub.saveConfig c config_dir).result with e | v
          · rw [run_saveCfg_err hub fs₀ t c e hta hca hsa hcc]
            exact writeDir_ne _ _ _ _ hdir
          · rw [run_all_ok hub fs₀ t c hta hca hsa hcc]
            exact writeDir_ne _ _ _ _ hdir
        cases u
        rw [key Cfg₁ hub₁ c₁ ht hc₁ hs, key Cfg₂ hub₂ c₂ ht₂ hc₂ hs₂, hst t]

/-- Closed witness for the amended C6: two concrete hub clients that
agree on the config pipeline but differ in the tokenizer fetch function
(while it still succeeds on `model_name`) leave identical content at the
config directory. -/
theorem claim_C6_amended_witness :
    (installModel okHub fsEmpty).fs config_dir =
      (installModel okHubAlt fsEmpty).fs config_dir :=
  claim_C6_amended.1 Nat Nat Nat Nat okHub okHubAlt fsEmpty 0 0 rfl (fun _ => rfl)
    rfl rfl (by simp [okHubAlt]) rfl

/-- Claim C7: running the installer twice in succession is idempotent on
the filesystem.  The hub client is a fixed behaviour record, so it
returns the same artifacts on each run, and each save overwrites its
destination; hence the filesystem after the second run equals the
filesystem after the first run. -/
theorem claim_C7 {Tok Cfg Content : Type} (hub : HubClient Tok Cfg Content)
    (fs₀ : FS Content) :
    (installModel hub (installModel hub fs₀).fs).fs = (installModel hub fs₀).fs := by
  rcases h₁ : hub.fetchTokenizer model_name with e | t
  · rw [run_fetchTok_err hub fs₀ e h₁]
    show (installModel hub fs₀).fs = fs₀
    rw [run_fetchTok_err hub fs₀ e h₁]
  · rcases h₂ : hub.fetchConfig model_name with e | c
    · rw [run_fetchCfg_err hub fs₀ t e h₁ h₂]
      show (installModel hub fs₀).fs = fs₀
      rw [run_fetchCfg_err hub fs₀ t e h₁ h₂]
    · rcases h₃ : (hub.saveTokenizer t tokenizer_dir).result with e | u
      · rw [run_saveTok_err hub fs₀ t c e h₁ h₂ h₃]
        show (installModel hub (writeDir fs₀ tokenizer_dir
            (hub.saveTokenizer t tokenizer_dir).written)).fs = _
        rw [run_saveTok_err hub _ t c e h₁ h₂ h₃]
        exact writeDir_idem _ _ _
      · cases u
        rcases h₄ : (hub.saveConfig c config_dir).result with e | v
        · rw [run_saveCfg_err hub fs₀ t c e h₁ h₂ h₃ h₄]
          show (installModel hub (writeDir (writeDir fs₀ tokenizer_dir
              (hub.saveTokenizer t tokenizer_dir).written) config_dir
              (hub.saveConfig c config_dir).written)).fs = _
          rw [run_saveCfg_err hub _ t c e h₁ h₂ h₃ h₄]
          exact writeDir_pair_idem _ _ _ _ _
        · cases v
          rw [run_all_ok hub fs₀ t c h₁ h₂ h₃ h₄]
          show (installModel hub (writeDir (writeDir fs₀ tokenizer_dir
              (hub.saveTokenizer t tokenizer_dir).written) config_dir
              (hub.saveConfig c config_dir).written)).fs = _
          rw [run_all_ok hub _ t c h₁ h₂ h₃ h₄]
          exact writeDir_pair_idem _ _ _ _ _

/-- Claim C8: the script's only filesystem effect is under the two
destination directories: every path other than "./llama2_tokenizer" and
"./llama2_config" holds exactly what it held before the run, for every
hub-client behaviour. -/
theorem claim_C8 {Tok Cfg Content : Type} (hub : HubClient Tok Cfg Content)
    (fs₀ : FS Content) (p : String)
    (hp₁ : p ≠ tokenizer_dir) (hp₂ : p ≠ config_dir) :
    (installModel hub fs₀).fs p = fs₀ p := by
  rcases h₁ : hub.fetchTokenizer model_name with e | t
  · rw [run_fetchTok_err hub fs₀ e h₁]
  · rcases h₂ : hub.fetchConfig model_name with e | c
    · rw [run_fetchCfg_err hub fs₀ t e h₁ h₂]
    · rcases h₃ : (hub.saveTokenizer t tokenizer_dir).result with e | u
      · rw [run_saveTok_err hub fs₀ t c e h₁ h₂ h₃]
        exact writeDir_ne _ _ _ _ hp₁
      · cases u
        rcases h₄ : (hub.saveConfig c config_dir).result with e | v
        · rw [run_saveCfg_err hub fs₀ t c e h₁ h₂ h₃ h₄]
          exact (writeDir_ne _ _ _ _ hp₂).trans (writeDir_ne _ _ _ _ hp₁)
        · cases v
          rw [run_all_ok hub fs₀ t c h₁ h₂ h₃ h₄]
          exact (writeDir_ne _ _ _ _ hp₂).trans (writeDir_ne _ _ _ _ hp₁)

/-- Closed witness for C8: in a concrete successful run, a path outside
the two destination directories is unchanged. -/
theorem claim_C8_witness :
    (installModel okHub fsEmpty).fs "./somewhere-else" = fsEmpty "./somewhere-else" :=
  claim_C8 okHub fsEmpty "./somewhere-else" (by decide) (by decide)

/-- Claim C9: both fetches complete before either save begins — any
trace containing a save operation starts with the tokenizer fetch
followed by the config fetch — and if either fetch fails (even with the
tokenizer fetch succeeding), the filesystem is left exactly unchanged. -/
theorem claim_C9 {Tok Cfg Content : Type} (hub : HubClient Tok Cfg Content)
    (fs₀ : FS Content) :
    (∀ d, (Op.saveTokenizer d ∈ (installModel hub fs₀).trace ∨
           Op.saveConfig d ∈ (installModel hub fs₀).trace) →
       ∃ rest, (installModel hub fs₀).trace =
         Op.fetchTokenizer model_name :: Op.fetchConfig model_name :: rest) ∧
    (((∃ e, hub.fetchTokenizer model_name = .error e) ∨
      (∃ e, hub.fetchConfig model_name = .error e)) →
      (installModel hub fs₀).fs = fs₀) := by
  constructor
  · intro d hd
    rcases h₁ : hub.fetchTokenizer model_name with e | t
    · rw [run_fetchTok_err hub fs₀ e h₁] at hd
      rcases hd with hd | hd <;> simp at hd
    · rcases h₂ : hub.fetchConfig model_name with e | c
      · rw [run_fetchCfg_err hub fs₀ t e h₁ h₂] at hd
        rcases hd with hd | hd <;> simp at hd
      · rcases h₃ : (hub.saveTokenizer t tokenizer_dir).result with e | u
        · rw [run_saveTok_err hub fs₀ t c e h₁ h₂ h₃]
          exact ⟨[Op.saveTokenizer tokenizer_dir], rfl⟩
        · cases u
          rcases h₄ : (hub.saveConfig c config_dir).result with e | v
          · rw [run_saveCfg_err hub fs₀ t c e h₁ h₂ h₃ h₄]
            exact ⟨[Op.saveTokenizer tokenizer_dir, Op.saveConfig config_dir], rfl⟩
          · cases v
            rw [run_all_ok hub fs₀ t c h₁ h₂ h₃ h₄]
            exact ⟨[Op.saveTokenizer tokenizer_dir, Op.saveConfig config_dir], rfl⟩
  · intro h
    rcases h with ⟨e, he⟩ | ⟨e, he⟩
    · rw [run_fetchTok_err hub fs₀ e he]
    · rcases h₁ : hub.fetchTokenizer model_name with e₁ | t
      · rw [run_fetchTok_err hub fs₀ e₁ h₁]
      · rw [run_fetchCfg_err hub fs₀ t e h₁ he]

/-- Closed witness for C9: with a failing config fetch the filesystem is
untouched, and in a fully successful run the trace begins with the two
fetches. -/
theorem claim_C9_witness :
    (installModel cfgFailHub fsEmpty).fs = fsEmpty ∧
    (∃ rest, (installModel okHub fsEmpty).trace =
      Op.fetchTokenizer model_name :: Op.fetchConfig model_name :: rest) :=
  ⟨(claim_C9 cfgFailHub fsEmpty).2 (Or.inr ⟨"not found", rfl⟩),
   (claim_C9 okHub fsEmpty).1 tokenizer_dir (Or.inl (by decide))⟩

/-- Claim C10: the script is deterministic relative to its collaborator:
it consults nothing but the hub client and the initial filesystem, so
two hub clients that agree on the fetches for `model_name` and on the
saves at the two destination directories produce byte-for-byte identical
runs (same exit, same trace, same final filesystem) from the same
initial filesystem. -/
theorem claim_C10 {Tok Cfg Content : Type}
    (hub₁ hub₂ : HubClient Tok Cfg Content) (fs₀ : FS Content)
    (hft : hub₁.fetchTokenizer model_name = hub₂.fetchTokenizer model_name)
    (hfc : hub₁.fetchConfig model_name = hub₂.fetchConfig model_name)
    (hst : ∀ t, hub₁.saveTokenizer t tokenizer_dir = hub₂.saveTokenizer t tokenizer_dir)
    (hsc : ∀ c, hub₁.saveConfig c config_dir = hub₂.saveConfig c config_dir) :
    installModel hub₁ fs₀ = installModel hub₂ fs₀ := by
  rcases h₁ : hub₁.fetchTokenizer model_name with e | t
  · rw [run_fetchTok_err hub₁ fs₀ e h₁, run_fetchTok_err hub₂ fs₀ e (hft ▸ h₁)]
  · rcases h₂ : hub₁.fetchConfig model_name with e | c
    · rw [run_fetchCfg_err hub₁ fs₀ t e h₁ h₂,
          run_fetchCfg_err hub₂ fs₀ t e (hft ▸ h₁) (hfc ▸ h₂)]
    · rcases h₃ : (hub₁.saveTokenizer t tokenizer_dir).result with e | u
      · rw [run_saveTok_err hub₁ fs₀ t c e h₁ h₂ h₃,
            run_saveTok_err hub₂ fs₀ t c e (hft ▸ h₁) (hfc ▸ h₂) ((hst t) ▸ h₃)]
        rw [hst t]
      · cases u
        rcases h₄ : (hub₁.saveConfig c config_dir).result with e | v
        · rw [run_saveCfg_err hub₁ fs₀ t c e h₁ h₂ h₃ h₄,
              run_saveCfg_err hub₂ fs₀ t c e (hft ▸ h₁) (hfc ▸ h₂)
                ((hst t) ▸ h₃) ((hsc c) ▸ h₄)]
          rw [hst t, hsc c]
        · cases v
          rw [run_all_ok hub₁ fs₀ t c h₁ h₂ h₃ h₄,
              run_all_ok hub₂ fs₀ t c (hft ▸ h₁) (hfc ▸ h₂)
                ((hst t) ▸ h₃) ((hsc c) ▸ h₄)]
          rw [hst t, hsc c]

/-- Closed witness for C10: two concrete hub clients differing outside
the consulted behaviours (one rejects unknown identifiers, one does not)
produce identical runs. -/
theorem claim_C10_witness :
    installModel okHub fsEmpty = installModel okHubAlt fsEmpty :=
  claim_C10 okHub okHubAlt fsEmpty (by simp [okHub, okHubAlt]) rfl
    (fun _ => rfl) (fun _ => rfl)
